import Mathlib

set_option maxRecDepth 8000

/-!
Verification development for the cy-collects synchronization pipeline.

The definitions below are a shallow embedding of the sync core:
the catalog client (`fetchAllSets`, `fetchCardsByPage`), the row mapper
(`ensureJson`, `mapSetToInsert`, `mapCardToInsert`), the driver-mode
orchestrator (`SyncService.syncPokemonTcg` from
`src/services/syncService.ts`) and the continuation-mode HTTP handler
(`ApiSync.handler` from `api/sync.ts`).  Upstream HTTP responses, the
store writer and the run ledger are modelled as explicit parameters
(`Upstream`, `Env`) and every run returns a `RunTrace` recording the
card pages fetched, the upsert batches issued and the ledger records
written, so that the observable behavior of each mode can be compared.
-/

/-- Runtime JSON-ish values as they arrive from `JSON.parse`: `null`,
booleans, numbers (modelled as integers), strings, arrays, plain objects,
plus `func` standing for an exotic non-JSON value (e.g. a function).
`undefined` is represented by `Option.none` at use sites. -/
inductive JsValue where
  | null
  | bool (b : Bool)
  | num (n : Int)
  | str (s : String)
  | arr (elems : List JsValue)
  | obj (fields : List (String × JsValue))
  | func

/-- Embedding of `ensureJson` from `api/sync.ts` / `syncService.ts`:
`null`/`undefined` yield `undefined`; strings, numbers, booleans, arrays
and plain objects pass through; anything else (an exotic value) yields
`undefined`.  `Option.none` on the input side stands for `undefined`. -/
def ensureJson (value : Option JsValue) : Option JsValue :=
  match value with
  | none => none
  | some JsValue.null => none
  | some (JsValue.str s) => some (JsValue.str s)
  | some (JsValue.num n) => some (JsValue.num n)
  | some (JsValue.bool b) => some (JsValue.bool b)
  | some (JsValue.arr xs) => some (JsValue.arr xs)
  | some (JsValue.obj kvs) => some (JsValue.obj kvs)
  | some JsValue.func => none

/-- The nested `set` reference of an upstream card (`row.set?.id`). -/
structure SetRef where
  id : String

/-- Upstream card record (`CardApi` in the source).  Optional fields are
`none` when absent upstream; the JSON-valued fields keep their raw
`JsValue` so that `ensureJson` is applied exactly as in the source. -/
structure CardApi where
  id : String
  name : String
  number : Option String := none
  images : Option JsValue := none
  legalities : Option JsValue := none
  rarity : Option String := none
  set : Option SetRef := none
  subtypes : Option (List String) := none
  supertype : Option String := none
  tcgplayer : Option JsValue := none
  cardmarket : Option JsValue := none
  types : Option (List String) := none

/-- Upstream set record (`SetApi` in the source).  `printedTotal` and
`total` keep their raw `JsValue` because the mapper re-checks
`typeof === "number"` at runtime. -/
structure SetApi where
  id : String
  name : String
  images : Option JsValue := none
  legalities : Option JsValue := none
  printedTotal : Option JsValue := none
  total : Option JsValue := none
  releaseDate : Option String := none
  series : Option String := none

/-- Emit a JSON object entry for an optional field: absent fields are
omitted from the serialized record, matching a parsed JSON object. -/
def optField (k : String) (v : Option JsValue) : List (String × JsValue) :=
  match v with
  | none => []
  | some j => [(k, j)]

/-- The upstream card record viewed as the plain JSON object that
`ensureJson(row)` receives when the mapper stores the raw payload. -/
def CardApi.toJs (c : CardApi) : JsValue :=
  JsValue.obj
    ([("id", JsValue.str c.id), ("name", JsValue.str c.name)]
      ++ optField "number" (c.number.map JsValue.str)
      ++ optField "images" c.images
      ++ optField "legalities" c.legalities
      ++ optField "rarity" (c.rarity.map JsValue.str)
      ++ optField "set" (c.set.map (fun s => JsValue.obj [("id", JsValue.str s.id)]))
      ++ optField "subtypes" (c.subtypes.map (fun l => JsValue.arr (l.map JsValue.str)))
      ++ optField "supertype" (c.supertype.map JsValue.str)
      ++ optField "tcgplayer" c.tcgplayer
      ++ optField "cardmarket" c.cardmarket
      ++ optField "types" (c.types.map (fun l => JsValue.arr (l.map JsValue.str))))

/-- The upstream set record viewed as the plain JSON object that
`ensureJson(row)` receives when the mapper stores the raw payload. -/
def SetApi.toJs (s : SetApi) : JsValue :=
  JsValue.obj
    ([("id", JsValue.str s.id), ("name", JsValue.str s.name)]
      ++ optField "images" s.images
      ++ optField "legalities" s.legalities
      ++ optField "printedTotal" s.printedTotal
      ++ optField "total" s.total
      ++ optField "releaseDate" (s.releaseDate.map JsValue.str)
      ++ optField "series" (s.series.map JsValue.str))

/-- Row written to the `sets` table (`TablesInsert<"sets">`). -/
structure SetRow where
  id : String
  name : String
  images : Option JsValue
  legalities : Option JsValue
  printed_total : Option Int
  total : Option Int
  release_date : Option String
  series : Option String
  raw : Option JsValue
  synced_at : String

/-- Row written to the `cards` table (`TablesInsert<"cards">`). -/
structure CardRow where
  id : String
  name : String
  number : Option String
  images : Option JsValue
  legalities : Option JsValue
  rarity : Option String
  raw : Option JsValue
  set_id : String
  subtypes : Option (List String)
  supertype : Option String
  synced_at : String
  tcgplayer_ref : Option JsValue
  cardmarket_ref : Option JsValue
  types : Option (List String)

/-- Embedding of `mapSetToInsert`: numeric fields are copied only when the
upstream value is an actual number, JSON fields go through `ensureJson`
with a `?? null` fallback, and the whole record is stored under `raw`.
`now` stands for `new Date().toISOString()` taken at mapping time. -/
def mapSetToInsert (row : SetApi) (now : String) : SetRow :=
  { id := row.id
    name := row.name
    images := ensureJson row.images
    legalities := ensureJson row.legalities
    printed_total := match row.printedTotal with
      | some (JsValue.num n) => some n
      | _ => none
    total := match row.total with
      | some (JsValue.num n) => some n
      | _ => none
    release_date := row.releaseDate
    series := row.series
    raw := ensureJson (some row.toJs)
    synced_at := now }

/-- Embedding of `mapCardToInsert`: `row.set?.id ?? ""` becomes
`set_id`, optional scalar fields fall back to `null`, JSON fields go
through `ensureJson`, and the whole record is stored under `raw`. -/
def mapCardToInsert (row : CardApi) (now : String) : CardRow :=
  { id := row.id
    name := row.name
    number := row.number
    images := ensureJson row.images
    legalities := ensureJson row.legalities
    rarity := row.rarity
    raw := ensureJson (some row.toJs)
    set_id := (row.set.map SetRef.id).getD ""
    subtypes := row.subtypes
    supertype := row.supertype
    synced_at := now
    tcgplayer_ref := ensureJson row.tcgplayer
    cardmarket_ref := ensureJson row.cardmarket
    types := row.types }

/-- Outcome of one outbound `fetch` of a paginated collection: either an
HTTP-success response whose parsed body may or may not carry a `data`
array, or a non-success response with its status code and body text. -/
inductive FetchOutcome (α : Type) where
  | httpOk (data : Option (List α))
  | httpError (status : Nat) (body : String)

/-- Embedding of `fetchAllSets`: on success return `body.data ?? []`; on a
non-success response raise `Failed to fetch sets: <status>`. -/
def fetchAllSets (o : FetchOutcome SetApi) : Except String (List SetApi) :=
  match o with
  | FetchOutcome.httpOk data => Except.ok (data.getD [])
  | FetchOutcome.httpError status _ =>
      Except.error ("Failed to fetch sets: " ++ toString status)

/-- Embedding of `fetchCardsByPage`: on success return `body.data ?? []`;
on a non-success response raise
`Failed to fetch cards page <page>: <status>`. -/
def fetchCardsByPage (page : Nat) (_pageSize : Nat) (o : FetchOutcome CardApi) :
    Except String (List CardApi) :=
  match o with
  | FetchOutcome.httpOk data => Except.ok (data.getD [])
  | FetchOutcome.httpError status _ =>
      Except.error ("Failed to fetch cards page " ++ toString page ++ ": " ++ toString status)

/-- Structured notes stored with a `sync_runs` ledger record: the driver
writes counts `{sets, cards}`, the continuation handler writes
`{sets, step: "sets"}` on its sets step, and every failure path writes
`{error: message}`. -/
inductive Notes where
  | counts (sets cards : Nat)
  | setsStep (sets : Nat)
  | err (msg : String)
  deriving DecidableEq

/-- One record inserted into the `sync_runs` table. -/
structure LedgerRecord where
  job : String
  ok : Bool
  notes : Notes
  deriving DecidableEq

/-- Observable trace of one pipeline run: which card pages were fetched,
which non-empty upsert batches were issued against `sets` and `cards`
(in order), and which ledger records were written. -/
structure RunTrace where
  cardPagesFetched : List Nat := []
  setBatches : List (List SetRow) := []
  cardBatches : List (List CardRow) := []
  ledger : List LedgerRecord := []

/-- The empty trace. -/
def RunTrace.empty : RunTrace := {}

/-- Concatenation of traces of successive phases of a run. -/
def RunTrace.append (a b : RunTrace) : RunTrace :=
  { cardPagesFetched := a.cardPagesFetched ++ b.cardPagesFetched
    setBatches := a.setBatches ++ b.setBatches
    cardBatches := a.cardBatches ++ b.cardBatches
    ledger := a.ledger ++ b.ledger }

/-- Upstream catalog behavior: the HTTP outcome of the single sets fetch
and of each `(page, pageSize)` cards fetch. -/
structure Upstream where
  setsOutcome : FetchOutcome SetApi
  cardsOutcome : Nat → Nat → FetchOutcome CardApi

/-- The environment of a run: the configured sync secret, the upstream
behavior, the store writer's reply to each upsert batch (`none` means
success, `some msg` a store error with message `msg`), and the
`new Date().toISOString()` clock value used when mapping rows. -/
structure Env where
  syncToken : Option String
  up : Upstream
  upsertSets : List SetRow → Option String
  upsertCards : List CardRow → Option String
  now : String

namespace SyncService

/-- Result of a successful driver-mode run (`SyncResult` in
`syncService.ts`). -/
structure SyncResult where
  setsUpserted : Nat
  cardsUpserted : Nat
  deriving DecidableEq

/-- The card-page loop of `syncPokemonTcg`: fetch page `page`, map, upsert
when non-empty, accumulate the count, and stop as soon as a page comes
back shorter than `pageSize`.  `fuel` bounds the number of iterations of
the source's `while (true)` loop; a result of `none` means the loop was
still running when the fuel ran out. -/
def cardsLoop (env : Env) (pageSize : Nat) :
    Nat → Nat → Nat → RunTrace × Option (Except String Nat)
  | 0, _, _ => (RunTrace.empty, none)
  | fuel + 1, page, acc =>
    match fetchCardsByPage page pageSize (env.up.cardsOutcome page pageSize) with
    | Except.error msg => ({ cardPagesFetched := [page] }, some (Except.error msg))
    | Except.ok data =>
      let upserts := data.map (fun c => mapCardToInsert c env.now)
      let pageTrace : RunTrace :=
        { cardPagesFetched := [page]
          cardBatches := if upserts.length > 0 then [upserts] else [] }
      match (if upserts.length > 0 then env.upsertCards upserts else none) with
      | some msg => (pageTrace, some (Except.error msg))
      | none =>
        let acc' := acc + upserts.length
        if data.length < pageSize then (pageTrace, some (Except.ok acc'))
        else
          let rest := cardsLoop env pageSize fuel (page + 1) acc'
          (pageTrace.append rest.1, rest.2)

/-- Embedding of `syncPokemonTcg` with the page size as an explicit
parameter: sync sets first, then loop over card pages, then write exactly
one terminal ledger record (job `pokemon_tcg_sync`): on success with notes
`{sets, cards}`, on any error with notes `{error}` before re-raising. -/
def syncPokemonTcgWith (env : Env) (pageSize fuel : Nat) :
    RunTrace × Option (Except String SyncResult) :=
  match fetchAllSets env.up.setsOutcome with
  | Except.error msg =>
      ({ ledger := [⟨"pokemon_tcg_sync", false, Notes.err msg⟩] },
       some (Except.error msg))
  | Except.ok sets =>
    let setInserts := sets.map (fun s => mapSetToInsert s env.now)
    let setTrace : RunTrace :=
      { setBatches := if setInserts.length > 0 then [setInserts] else [] }
    match (if setInserts.length > 0 then env.upsertSets setInserts else none) with
    | some msg =>
        (setTrace.append { ledger := [⟨"pokemon_tcg_sync", false, Notes.err msg⟩] },
         some (Except.error msg))
    | none =>
      let loop := cardsLoop env pageSize fuel 1 0
      match loop.2 with
      | none => (setTrace.append loop.1, none)
      | some (Except.error msg) =>
          (setTrace.append (loop.1.append
             { ledger := [⟨"pokemon_tcg_sync", false, Notes.err msg⟩] }),
           some (Except.error msg))
      | some (Except.ok cards) =>
          (setTrace.append (loop.1.append
             { ledger := [⟨"pokemon_tcg_sync", true, Notes.counts setInserts.length cards⟩] }),
           some (Except.ok ⟨setInserts.length, cards⟩))

/-- `syncPokemonTcg` as in the source, with its hard-coded page size of
250. -/
def syncPokemonTcg (env : Env) (fuel : Nat) :
    RunTrace × Option (Except String SyncResult) :=
  syncPokemonTcgWith env 250 fuel

end SyncService

namespace ApiSync

/-- Parsed JSON request body of the trigger endpoint.  Fields keep their
raw `JsValue` (or `none` when absent) because the handler re-validates
their runtime types. -/
structure ReqBody where
  step : Option JsValue := none
  page : Option JsValue := none
  pageSize : Option JsValue := none

/-- An incoming HTTP request to `/api/sync`: method, the optional
`x-sync-token` header, and the body (`none` when the body is absent or
not parseable as JSON, in which case the source's try/catch falls back to
`{}`). -/
structure SyncRequest where
  method : String
  token : Option String := none
  body : Option ReqBody := none

/-- The response of the trigger endpoint, one constructor per exit of the
source handler. -/
inductive HandlerResp where
  | noContent
  | methodNotAllowed
  | unauthorized
  | setsOk (setsUpserted : Nat) (nextStep : String) (nextPage : Nat) (nextPageSize : Nat)
  | cardsOk (processed : Nat) (page : Nat) (pageSize : Nat)
      (hasMore : Bool) (nextPage : Option Nat)
  | serverError (msg : String)
  deriving DecidableEq

/-- HTTP status code of each response. -/
def HandlerResp.status : HandlerResp → Nat
  | HandlerResp.noContent => 204
  | HandlerResp.methodNotAllowed => 405
  | HandlerResp.unauthorized => 401
  | HandlerResp.setsOk _ _ _ _ => 200
  | HandlerResp.cardsOk _ _ _ _ _ => 200
  | HandlerResp.serverError _ => 500

/-- The authorization gate of the handler: with a configured non-empty
secret, reject when the provided header is absent, empty (falsy in the
source's `!providedToken` test) or different from the secret; with no
secret (or an empty one) never reject. -/
def authRejects (expected : Option String) (provided : Option String) : Bool :=
  match expected with
  | none => false
  | some s =>
    if s.length > 0 then
      match provided with
      | none => true
      | some t => if t.length = 0 then true else decide (t ≠ s)
    else false

/-- Coercion of the body's `page` field as in the source:
`typeof body.page === "number" && body.page > 0 ? body.page : 1`. -/
def coercePage (v : Option JsValue) : Nat :=
  match v with
  | some (JsValue.num n) => if 0 < n then n.toNat else 1
  | _ => 1

/-- Coercion of the body's `pageSize` field as in the source:
`typeof body.pageSize === "number" && body.pageSize > 0 ? body.pageSize : 250`. -/
def coercePageSize (v : Option JsValue) : Nat :=
  match v with
  | some (JsValue.num n) => if 0 < n then n.toNat else 250
  | _ => 250

/-- The source's `step === "sets"` comparison: only the string `"sets"`
selects the sets branch; any other value (including non-strings) falls
through to the cards branch. -/
def isStepSets (v : JsValue) : Bool :=
  match v with
  | JsValue.str s => decide (s = "sets")
  | _ => false

/-- The catch-all failure exit of the handler: insert one ledger record
(job `seed_cards`, `ok = false`, notes `{error: msg}`) and answer 500
with the message. -/
def failTrace (msg : String) : RunTrace :=
  { ledger := [⟨"seed_cards", false, Notes.err msg⟩] }

/-- Embedding of the edge-function `handler` in `api/sync.ts`
(continuation mode): method check, authorization gate, body defaulting,
then either the sets step (upsert all sets, write a `{sets, step}`
ledger record, answer with the next cursor `{cards, 1, pageSize}`) or a
single cards page (upsert, answer with `hasMore`/`nextPage`). -/
def handler (env : Env) (req : SyncRequest) : RunTrace × HandlerResp :=
  if req.method = "OPTIONS" then (RunTrace.empty, HandlerResp.noContent)
  else if req.method ≠ "POST" then (RunTrace.empty, HandlerResp.methodNotAllowed)
  else if authRejects env.syncToken req.token then
    (RunTrace.empty, HandlerResp.unauthorized)
  else
    let body := req.body.getD {}
    let step := body.step.getD (JsValue.str "sets")
    let page := coercePage body.page
    let pageSize := coercePageSize body.pageSize
    if isStepSets step then
      match fetchAllSets env.up.setsOutcome with
      | Except.error msg => (failTrace msg, HandlerResp.serverError msg)
      | Except.ok sets =>
        let setInserts := sets.map (fun s => mapSetToInsert s env.now)
        let setTrace : RunTrace :=
          { setBatches := if setInserts.length > 0 then [setInserts] else [] }
        match (if setInserts.length > 0 then env.upsertSets setInserts else none) with
        | some msg => (setTrace.append (failTrace msg), HandlerResp.serverError msg)
        | none =>
          ({ setTrace with
              ledger := [⟨"seed_cards", true, Notes.setsStep setInserts.length⟩] },
           HandlerResp.setsOk setInserts.length "cards" 1 pageSize)
    else
      match fetchCardsByPage page pageSize (env.up.cardsOutcome page pageSize) with
      | Except.error msg =>
          (RunTrace.append { cardPagesFetched := [page] } (failTrace msg),
           HandlerResp.serverError msg)
      | Except.ok data =>
        let upserts := data.map (fun c => mapCardToInsert c env.now)
        let pageTrace : RunTrace :=
          { cardPagesFetched := [page]
            cardBatches := if upserts.length > 0 then [upserts] else [] }
        match (if upserts.length > 0 then env.upsertCards upserts else none) with
        | some msg => (pageTrace.append (failTrace msg), HandlerResp.serverError msg)
        | none =>
          let hasMore := data.length == pageSize
          (pageTrace,
           HandlerResp.cardsOk upserts.length page pageSize hasMore
             (if hasMore then some (page + 1) else none))

end ApiSync

namespace ApiSync

/-- A continuation-mode request for one cards page, as the caller builds
it from a cursor `{step: "cards", page, pageSize}`. -/
def cardsReq (tok : Option String) (p psz : Nat) : SyncRequest :=
  { method := "POST", token := tok
    body := some { step := some (JsValue.str "cards")
                   page := some (JsValue.num p)
                   pageSize := some (JsValue.num psz) } }

/-- A continuation-mode request for the sets step carrying the desired
page size. -/
def setsReq (tok : Option String) (psz : Nat) : SyncRequest :=
  { method := "POST", token := tok
    body := some { step := some (JsValue.str "sets")
                   pageSize := some (JsValue.num psz) } }

/-- The caller of continuation mode, iterating the cards step: it replays
each returned cursor (`nextPage`, echoed `pageSize`) while the handler
reports `hasMore = true`, and stops as soon as `hasMore = false`
(returning `true` for completion) or on any non-success response
(returning `false`).  `fuel` bounds the number of invocations. -/
def iterateCards (env : Env) (tok : Option String) :
    Nat → Nat → Nat → RunTrace × Bool
  | 0, _, _ => (RunTrace.empty, false)
  | fuel + 1, page, psz =>
    let call := handler env (cardsReq tok page psz)
    match call.2 with
    | HandlerResp.cardsOk _ _ psz' true (some p') =>
        let rest := iterateCards env tok fuel p' psz'
        (call.1.append rest.1, rest.2)
    | HandlerResp.cardsOk _ _ _ false _ => (call.1, true)
    | _ => (call.1, false)

/-- A full caller-driven continuation run: first the sets step, then the
cards pages starting from the cursor the sets step returned.  The
combined trace is the concatenation of every invocation's trace; the
boolean reports whether the run reached `done`. -/
def continuationRun (env : Env) (tok : Option String) (pageSize fuel : Nat) :
    RunTrace × Bool :=
  let first := handler env (setsReq tok pageSize)
  match first.2 with
  | HandlerResp.setsOk _ _ nextPage nextPageSize =>
      let rest := iterateCards env tok fuel nextPage nextPageSize
      (first.1.append rest.1, rest.2)
  | _ => (first.1, false)

end ApiSync

/-- Concrete upstream card fixtures used by the end-to-end examples. -/
def cardA : CardApi := { id := "A", name := "Card A" }

/-- Second fixture card. -/
def cardB : CardApi := { id := "B", name := "Card B" }

/-- Third fixture card. -/
def cardC : CardApi := { id := "C", name := "Card C" }

/-- Fourth fixture card. -/
def cardD : CardApi := { id := "D", name := "Card D" }

/-- Fifth fixture card. -/
def cardE : CardApi := { id := "E", name := "Card E" }

/-- Fixture set records. -/
def setOne : SetApi := { id := "s1", name := "Set One" }

/-- Second fixture set record. -/
def setTwo : SetApi := { id := "s2", name := "Set Two" }

/-- The C1 fixture environment: the upstream returns two sets, and card
pages `[A, B]`, `[C, D]`, `[E]` for pages 1, 2, 3 (empty afterwards); no
secret is configured, every store write succeeds. -/
def envC1 : Env :=
  { syncToken := none
    up := { setsOutcome := FetchOutcome.httpOk (some [setOne, setTwo])
            cardsOutcome := fun page _ =>
              if page = 1 then FetchOutcome.httpOk (some [cardA, cardB])
              else if page = 2 then FetchOutcome.httpOk (some [cardC, cardD])
              else if page = 3 then FetchOutcome.httpOk (some [cardE])
              else FetchOutcome.httpOk (some []) }
    upsertSets := fun _ => none
    upsertCards := fun _ => none
    now := "t0" }

/-- A small benign environment: one set, one card on page 1, empty page 2,
no secret, all store writes succeed. -/
def envSmall : Env :=
  { syncToken := none
    up := { setsOutcome := FetchOutcome.httpOk (some [setOne])
            cardsOutcome := fun page _ =>
              if page = 1 then FetchOutcome.httpOk (some [cardA])
              else FetchOutcome.httpOk (some []) }
    upsertSets := fun _ => none
    upsertCards := fun _ => none
    now := "t0" }

/-- The `envSmall` environment with a configured sync secret. -/
def envSecret : Env :=
  { envSmall with syncToken := some "hunter2" }

/-- The `envSmall` environment whose cards upserts all fail with message
`cards write failed`. -/
def envCardsFail : Env :=
  { envSmall with upsertCards := fun _ => some "cards write failed" }
/-- C4: a card record that has an id and a name but is missing `number`,
`images` and `set` maps to a row with `number = null`, `images = null`,
`set_id = ""` and a raw payload equal to the original input record. -/
theorem c4_map_card_defaults (c : CardApi) (now : String)
    (hnum : c.number = none) (himg : c.images = none) (hset : c.set = none) :
    (mapCardToInsert c now).number = none ∧
    (mapCardToInsert c now).images = none ∧
    (mapCardToInsert c now).set_id = "" ∧
    (mapCardToInsert c now).raw = some c.toJs := by
  refine ⟨?_, ?_, ?_, ?_⟩
  · simp [mapCardToInsert, hnum]
  · simp [mapCardToInsert, himg, ensureJson]
  · simp [mapCardToInsert, hset]
  · simp [mapCardToInsert, CardApi.toJs, ensureJson]

/-- C4 witness: the defaulting behavior evaluated on a concrete card
record carrying only an id and a name. -/
theorem c4_map_card_defaults_witness :
    (mapCardToInsert { id := "xy1-1", name := "Pikachu" } "t0").number = none ∧
    (mapCardToInsert { id := "xy1-1", name := "Pikachu" } "t0").images = none ∧
    (mapCardToInsert { id := "xy1-1", name := "Pikachu" } "t0").set_id = "" ∧
    (mapCardToInsert { id := "xy1-1", name := "Pikachu" } "t0").raw =
      some (CardApi.toJs { id := "xy1-1", name := "Pikachu" }) :=
  c4_map_card_defaults { id := "xy1-1", name := "Pikachu" } "t0" rfl rfl rfl

/-- C7 counterexample: the claim says the raised error message carries the
HTTP status and the response body.  On a 500 response with body `boom`,
`fetchAllSets` raises `Failed to fetch sets: 500`, which does not contain
the response body at all. -/
theorem c7_counterexample :
    fetchAllSets (FetchOutcome.httpError 500 "boom") =
      Except.error "Failed to fetch sets: 500" ∧
    ¬ ("boom".data <:+: "Failed to fetch sets: 500".data) := by
  exact ⟨rfl, by decide⟩

/-- C7 amended: on every non-success response the client raises an error
whose message carries the HTTP status (and, for cards, the page number)
but not the response body, and each call consumes exactly the single
response it is given, with no retry. -/
theorem c7_fetch_error_message (status : Nat) (body : String) (page pageSize : Nat) :
    fetchAllSets (FetchOutcome.httpError status body) =
      Except.error ("Failed to fetch sets: " ++ toString status) ∧
    fetchCardsByPage page pageSize (FetchOutcome.httpError status body) =
      Except.error ("Failed to fetch cards page " ++ toString page ++ ": " ++ toString status) ∧
    (toString status).data <:+: ("Failed to fetch sets: " ++ toString status).data ∧
    (toString status).data <:+:
      ("Failed to fetch cards page " ++ toString page ++ ": " ++ toString status).data := by
  refine ⟨rfl, rfl, ?_, ?_⟩
  · refine List.IsSuffix.isInfix ?_
    rw [String.data_append]
    exact List.suffix_append _ _
  · refine List.IsSuffix.isInfix ?_
    rw [String.data_append]
    exact List.suffix_append _ _

/-- C1: on the fixture upstream with 2 sets and card pages `[A,B]`,
`[C,D]`, `[E]` at page size 2, a driver-mode run returns
`setsUpserted = 2`, `cardsUpserted = 5` and writes exactly one ledger
record with `ok = true` and notes `{sets: 2, cards: 5}`. -/
theorem c1_driver_end_to_end :
    (SyncService.syncPokemonTcgWith envC1 2 10).2 =
      some (Except.ok ({ setsUpserted := 2, cardsUpserted := 5 } : SyncService.SyncResult)) ∧
    (SyncService.syncPokemonTcgWith envC1 2 10).1.ledger =
      [⟨"pokemon_tcg_sync", true, Notes.counts 2 5⟩] :=
  ⟨rfl, rfl⟩

/-- C8 counterexample: the claim says an authorized bodyless POST runs
everything to completion in one invocation.  On `envSmall`, whose card
page 1 is non-empty, the handler instead performs only the sets step:
it fetches no card pages and answers with the continuation cursor
`{step: "cards", page: 1, pageSize: 250}`. -/
theorem c8_counterexample :
    fetchCardsByPage 1 250 (envSmall.up.cardsOutcome 1 250) = Except.ok [cardA] ∧
    (ApiSync.handler envSmall { method := "POST" }).2 =
      ApiSync.HandlerResp.setsOk 1 "cards" 1 250 ∧
    (ApiSync.handler envSmall { method := "POST" }).1.cardPagesFetched = [] :=
  ⟨rfl, rfl, rfl⟩

/-- C9 counterexample: the claim says driver mode and iterated
continuation mode produce the same ledger outcomes.  On the benign
environment `envSmall` (all fetches and writes succeed) the driver run
writes `[{job: pokemon_tcg_sync, ok: true, notes: {sets: 1, cards: 1}}]`
while the iterated continuation run writes
`[{job: seed_cards, ok: true, notes: {sets: 1, step: "sets"}}]`. -/
theorem c9_counterexample :
    (SyncService.syncPokemonTcgWith envSmall 1 3).1.ledger =
      [⟨"pokemon_tcg_sync", true, Notes.counts 1 1⟩] ∧
    (ApiSync.continuationRun envSmall none 1 3).1.ledger =
      [⟨"seed_cards", true, Notes.setsStep 1⟩] ∧
    (SyncService.syncPokemonTcgWith envSmall 1 3).1.ledger ≠
      (ApiSync.continuationRun envSmall none 1 3).1.ledger := by
  refine ⟨rfl, rfl, by decide⟩

/-- Helper: the page coercion maps an actual positive number to itself. -/
theorem coercePage_pos (p : Nat) (hp : 1 ≤ p) :
    ApiSync.coercePage (some (JsValue.num p)) = p := by
  simp only [ApiSync.coercePage]
  rw [if_pos (by exact_mod_cast hp)]
  omega

/-- Helper: the page-size coercion maps an actual positive number to
itself. -/
theorem coercePageSize_pos (psz : Nat) (h : 0 < psz) :
    ApiSync.coercePageSize (some (JsValue.num psz)) = psz := by
  simp only [ApiSync.coercePageSize]
  rw [if_pos (by exact_mod_cast h)]
  omega

/-- Helper: on an authorized POST carrying a cards cursor, the handler
reduces to the single-page cards step over the fetched data. -/
theorem handler_cards_step (env : Env) (tok : Option String) (p psz : Nat)
    (hp : 1 ≤ p) (hpsz : 0 < psz)
    (hauth : ApiSync.authRejects env.syncToken tok = false)
    (data : List CardApi)
    (hfetch : fetchCardsByPage p psz (env.up.cardsOutcome p psz) = Except.ok data) :
    ApiSync.handler env (ApiSync.cardsReq tok p psz) =
      (let upserts := data.map (fun c => mapCardToInsert c env.now)
       let pageTrace : RunTrace :=
         { cardPagesFetched := [p]
           cardBatches := if upserts.length > 0 then [upserts] else [] }
       match (if upserts.length > 0 then env.upsertCards upserts else none) with
       | some msg =>
           (pageTrace.append (ApiSync.failTrace msg), ApiSync.HandlerResp.serverError msg)
       | none =>
           (pageTrace,
            ApiSync.HandlerResp.cardsOk upserts.length p psz (data.length == psz)
              (if data.length == psz then some (p + 1) else none))) := by
  have hpage := coercePage_pos p hp
  have hpsze := coercePageSize_pos psz hpsz
  simp only [ApiSync.handler, ApiSync.cardsReq, hauth, hpage, hpsze, hfetch,
    Option.getD_some, ApiSync.isStepSets]
  rw [if_neg (by decide), if_neg (by decide), if_neg (by decide), if_neg (by decide)]

/-- C3: a continuation-mode cards invocation with `page = p` whose fetch
returns exactly `pageSize` cards answers `hasMore = true` and
`nextPage = p + 1`; one whose fetch returns strictly fewer answers
`hasMore = false` (with no next page). -/
theorem c3_cursor_correctness (env : Env) (tok : Option String) (p psz : Nat)
    (hp : 1 ≤ p) (hpsz : 0 < psz)
    (hauth : ApiSync.authRejects env.syncToken tok = false)
    (data : List CardApi)
    (hfetch : fetchCardsByPage p psz (env.up.cardsOutcome p psz) = Except.ok data)
    (hup : env.upsertCards (data.map (fun c => mapCardToInsert c env.now)) = none) :
    (data.length = psz →
      (ApiSync.handler env (ApiSync.cardsReq tok p psz)).2 =
        ApiSync.HandlerResp.cardsOk data.length p psz true (some (p + 1))) ∧
    (data.length < psz →
      (ApiSync.handler env (ApiSync.cardsReq tok p psz)).2 =
        ApiSync.HandlerResp.cardsOk data.length p psz false none) := by
  rw [handler_cards_step env tok p psz hp hpsz hauth data hfetch]
  constructor
  · intro h
    simp [hup, h]
  · intro h
    simp [hup, Nat.ne_of_lt h]

/-- C3 witness: on the small benign fixture, page 1 of size 1 is full, so
the handler answers `hasMore = true`, `nextPage = 2`. -/
theorem c3_cursor_correctness_witness :
    (ApiSync.handler envSmall (ApiSync.cardsReq none 1 1)).2 =
      ApiSync.HandlerResp.cardsOk 1 1 1 true (some 2) :=
  (c3_cursor_correctness envSmall none 1 1 (by decide) (by decide) rfl
    [cardA] rfl rfl).1 rfl

/-- C6: a cards-step invocation whose store upsert reports an error
writes exactly one ledger record (`ok = false`, notes `{error: msg}`)
and answers with status 500 carrying the same message. -/
theorem c6_failure_recording (env : Env) (tok : Option String) (p psz : Nat)
    (hp : 1 ≤ p) (hpsz : 0 < psz)
    (hauth : ApiSync.authRejects env.syncToken tok = false)
    (data : List CardApi)
    (hfetch : fetchCardsByPage p psz (env.up.cardsOutcome p psz) = Except.ok data)
    (hdata : 0 < data.length) (msg : String)
    (hup : env.upsertCards (data.map (fun c => mapCardToInsert c env.now)) = some msg) :
    (ApiSync.handler env (ApiSync.cardsReq tok p psz)).1.ledger =
      [⟨"seed_cards", false, Notes.err msg⟩] ∧
    (ApiSync.handler env (ApiSync.cardsReq tok p psz)).2 =
      ApiSync.HandlerResp.serverError msg ∧
    ((ApiSync.handler env (ApiSync.cardsReq tok p psz)).2).status = 500 := by
  rw [handler_cards_step env tok p psz hp hpsz hauth data hfetch]
  refine ⟨?_, ?_, ?_⟩ <;>
    simp [hup, hdata, RunTrace.append, ApiSync.failTrace, ApiSync.HandlerResp.status]

/-- C6 witness: on the fixture whose cards upserts fail, the cards step
for page 1 writes the single failure ledger record and answers 500. -/
theorem c6_failure_recording_witness :
    (ApiSync.handler envCardsFail (ApiSync.cardsReq none 1 1)).1.ledger =
      [⟨"seed_cards", false, Notes.err "cards write failed"⟩] ∧
    (ApiSync.handler envCardsFail (ApiSync.cardsReq none 1 1)).2 =
      ApiSync.HandlerResp.serverError "cards write failed" ∧
    ((ApiSync.handler envCardsFail (ApiSync.cardsReq none 1 1)).2).status = 500 :=
  c6_failure_recording envCardsFail none 1 1 (by decide) (by decide) rfl
    [cardA] rfl (by decide) "cards write failed" rfl

/-- Helper: an authorized POST is never answered `unauthorized`,
whatever the upstream and the store do. -/
theorem handler_post_ne_unauthorized (env : Env) (req : ApiSync.SyncRequest)
    (hm : req.method = "POST")
    (hauth : ApiSync.authRejects env.syncToken req.token = false) :
    (ApiSync.handler env req).2 ≠ ApiSync.HandlerResp.unauthorized := by
  simp only [ApiSync.handler, hm, hauth]
  rw [if_neg (by decide), if_neg (by decide), if_neg (by decide)]
  repeat' split
  all_goals exact fun h => ApiSync.HandlerResp.noConfusion h

/-- C5: with a configured (non-empty) secret, a POST whose `x-sync-token`
header is missing or different is answered 401 with an empty trace (no
fetch, no store write, no ledger record); a POST carrying the correct
header, or any POST when no secret is configured, is never answered
401. -/
theorem c5_authorization_gate (env : Env) (req : ApiSync.SyncRequest)
    (hm : req.method = "POST") :
    (∀ s, env.syncToken = some s → 0 < s.length →
      ((req.token = none ∨ ∃ t, req.token = some t ∧ t ≠ s) →
        ApiSync.handler env req = (RunTrace.empty, ApiSync.HandlerResp.unauthorized)) ∧
      (req.token = some s →
        (ApiSync.handler env req).2 ≠ ApiSync.HandlerResp.unauthorized)) ∧
    (env.syncToken = none →
      (ApiSync.handler env req).2 ≠ ApiSync.HandlerResp.unauthorized) := by
  constructor
  · intro s hs hlen
    constructor
    · intro hbad
      have hrej : ApiSync.authRejects env.syncToken req.token = true := by
        rw [hs]
        simp only [ApiSync.authRejects]
        rw [if_pos hlen]
        rcases hbad with h | ⟨t, ht, hne⟩
        · rw [h]
        · rw [ht]
          by_cases h0 : t.length = 0
          · simp [h0]
          · simp [h0, hne]
      simp [ApiSync.handler, hm, hrej]
    · intro ht
      apply handler_post_ne_unauthorized env req hm
      rw [hs, ht]
      simp only [ApiSync.authRejects]
      rw [if_pos hlen, if_neg (by omega)]
      simp
  · intro hnone
    apply handler_post_ne_unauthorized env req hm
    rw [hnone]
    rfl

/-- C5 witness: with secret `hunter2`, a tokenless POST is rejected with
an empty trace, and a POST carrying `hunter2` is not rejected. -/
theorem c5_authorization_gate_witness :
    ApiSync.handler envSecret { method := "POST" } =
      (RunTrace.empty, ApiSync.HandlerResp.unauthorized) ∧
    (ApiSync.handler envSecret { method := "POST", token := some "hunter2" }).2 ≠
      ApiSync.HandlerResp.unauthorized :=
  ⟨((c5_authorization_gate envSecret { method := "POST" } rfl).1 "hunter2" rfl
      (by decide)).1 (Or.inl rfl),
   ((c5_authorization_gate envSecret { method := "POST", token := some "hunter2" } rfl).1
      "hunter2" rfl (by decide)).2 rfl⟩

/-- C10: an absent (or unparseable) body is processed exactly like the
empty object, and the `page` and `pageSize` coercions replace anything
that is not a positive number with the defaults 1 and 250. -/
theorem c10_body_defaults (env : Env) (req : ApiSync.SyncRequest)
    (hbody : req.body = none) :
    ApiSync.handler env req = ApiSync.handler env { req with body := some {} } ∧
    (∀ v : Option JsValue, (∀ n : Int, v = some (JsValue.num n) → n ≤ 0) →
      ApiSync.coercePage v = 1) ∧
    (∀ v : Option JsValue, (∀ n : Int, v = some (JsValue.num n) → n ≤ 0) →
      ApiSync.coercePageSize v = 250) := by
  refine ⟨?_, ?_, ?_⟩
  · simp only [ApiSync.handler, hbody, Option.getD_none, Option.getD_some]
  · intro v h
    cases v with
    | none => rfl
    | some j =>
      cases j with
      | num n =>
        have hn := h n rfl
        simp only [ApiSync.coercePage]
        rw [if_neg (by omega)]
      | null => rfl
      | bool b => rfl
      | str s => rfl
      | arr xs => rfl
      | obj kvs => rfl
      | func => rfl
  · intro v h
    cases v with
    | none => rfl
    | some j =>
      cases j with
      | num n =>
        have hn := h n rfl
        simp only [ApiSync.coercePageSize]
        rw [if_neg (by omega)]
      | null => rfl
      | bool b => rfl
      | str s => rfl
      | arr xs => rfl
      | obj kvs => rfl
      | func => rfl

/-- C10 witness: the defaulting evaluated on a bodyless request, a
non-numeric `page` and an absent `pageSize`. -/
theorem c10_body_defaults_witness :
    ApiSync.handler envSmall { method := "POST" } =
      ApiSync.handler envSmall { method := "POST", body := some {} } ∧
    ApiSync.coercePage (some (JsValue.str "two")) = 1 ∧
    ApiSync.coercePageSize none = 250 := by
  obtain ⟨h1, h2, h3⟩ := c10_body_defaults envSmall { method := "POST" } rfl
  exact ⟨h1, h2 _ (by intro n h; simp at h), h3 _ (by intro n h; simp at h)⟩

/-- Helper: on an authorized POST whose resolved step is `"sets"`, the
handler reduces to the sets step, answering with the continuation cursor
`{step: "cards", page: 1, pageSize}`. -/
theorem handler_sets_step (env : Env) (req : ApiSync.SyncRequest)
    (hm : req.method = "POST")
    (hauth : ApiSync.authRejects env.syncToken req.token = false)
    (hstep : ((req.body.getD {} : ApiSync.ReqBody).step.getD (JsValue.str "sets")) =
      JsValue.str "sets") :
    ApiSync.handler env req =
      (match fetchAllSets env.up.setsOutcome with
       | Except.error msg => (ApiSync.failTrace msg, ApiSync.HandlerResp.serverError msg)
       | Except.ok sets =>
         let setInserts := sets.map (fun s => mapSetToInsert s env.now)
         let setTrace : RunTrace :=
           { setBatches := if setInserts.length > 0 then [setInserts] else [] }
         match (if setInserts.length > 0 then env.upsertSets setInserts else none) with
         | some msg =>
             (setTrace.append (ApiSync.failTrace msg), ApiSync.HandlerResp.serverError msg)
         | none =>
             ({ setTrace with
                 ledger := [⟨"seed_cards", true, Notes.setsStep setInserts.length⟩] },
              ApiSync.HandlerResp.setsOk setInserts.length "cards" 1
                (ApiSync.coercePageSize (req.body.getD {} : ApiSync.ReqBody).pageSize))) := by
  simp only [ApiSync.handler, hm, hstep, ApiSync.isStepSets]
  rw [if_neg (by decide), if_neg (by decide)]
  rw [if_neg (by simp [hauth]), if_pos (by decide)]

/-- C8 amended: an authorized bodyless POST is treated as the sets step
(continuation mode): the invocation upserts the sets only, fetches no
card page, writes the sets-step ledger record, and returns the
continuation cursor `{step: "cards", page: 1, pageSize: 250}` for the
caller to continue with, rather than running all card pages itself. -/
theorem c8_sets_step_only (env : Env) (req : ApiSync.SyncRequest)
    (hm : req.method = "POST")
    (hauth : ApiSync.authRejects env.syncToken req.token = false)
    (hbody : req.body = none)
    (sets : List SetApi)
    (hsets : fetchAllSets env.up.setsOutcome = Except.ok sets)
    (hsup : ∀ b, env.upsertSets b = none) :
    ApiSync.handler env req =
      ({ setBatches := if (sets.map (fun s => mapSetToInsert s env.now)).length > 0
            then [sets.map (fun s => mapSetToInsert s env.now)] else []
         ledger := [⟨"seed_cards", true, Notes.setsStep sets.length⟩] },
       ApiSync.HandlerResp.setsOk sets.length "cards" 1 250) ∧
    (ApiSync.handler env req).1.cardPagesFetched = [] := by
  have hstep : ((req.body.getD {} : ApiSync.ReqBody).step.getD (JsValue.str "sets")) =
      JsValue.str "sets" := by
    rw [hbody]
    rfl
  rw [handler_sets_step env req hm hauth hstep, hsets, hbody]
  constructor
  · simp [hsup, ApiSync.coercePageSize]
  · simp [hsup]

/-- C8 amended witness: evaluated on the small benign environment and a
bodyless POST. -/
theorem c8_sets_step_only_witness :
    ApiSync.handler envSmall { method := "POST" } =
      ({ setBatches := [[mapSetToInsert setOne "t0"]]
         ledger := [⟨"seed_cards", true, Notes.setsStep 1⟩] },
       ApiSync.HandlerResp.setsOk 1 "cards" 1 250) ∧
    (ApiSync.handler envSmall { method := "POST" }).1.cardPagesFetched = [] := by
  have h := c8_sets_step_only envSmall { method := "POST" } rfl rfl rfl
    [setOne] rfl (fun _ => rfl)
  simpa using h

/-- Helper: when pages `page .. page+j-1` are full and page `page+j` is
short, the driver's card loop with at least `j+1` fuel fetches exactly
pages `page .. page+j` and terminates successfully. -/
theorem cardsLoop_full_then_short (env : Env) (pageSize : Nat)
    (hcup : ∀ b, env.upsertCards b = none) :
    ∀ (j page fuel acc : Nat), j + 1 ≤ fuel →
    (∀ i, page ≤ i → i < page + j →
      ∃ l, fetchCardsByPage i pageSize (env.up.cardsOutcome i pageSize) = Except.ok l ∧
        l.length = pageSize) →
    (∃ l, fetchCardsByPage (page + j) pageSize (env.up.cardsOutcome (page + j) pageSize) =
        Except.ok l ∧ l.length < pageSize) →
    (SyncService.cardsLoop env pageSize fuel page acc).1.cardPagesFetched =
      List.range' page (j + 1) ∧
    ∃ n, (SyncService.cardsLoop env pageSize fuel page acc).2 = some (Except.ok n) := by
  intro j
  induction j with
  | zero =>
    intro page fuel acc hfuel hfull hlast
    obtain ⟨l, hfetch, hlen⟩ := hlast
    rw [Nat.add_zero] at hfetch
    obtain ⟨f, rfl⟩ : ∃ f, fuel = f + 1 := ⟨fuel - 1, by omega⟩
    constructor
    · simp [SyncService.cardsLoop, hfetch, hcup, hlen, List.range']
    · exact ⟨acc + l.length, by simp [SyncService.cardsLoop, hfetch, hcup, hlen]⟩
  | succ j ih =>
    intro page fuel acc hfuel hfull hlast
    obtain ⟨f, rfl⟩ : ∃ f, fuel = f + 1 := ⟨fuel - 1, by omega⟩
    obtain ⟨l, hfetch, hlen⟩ := hfull page (Nat.le_refl page) (by omega)
    have hnotshort : ¬ (l.length < pageSize) := by omega
    have ihm := ih (page + 1) f (acc + l.length) (by omega)
      (fun i h1 h2 => hfull i (by omega) (by omega))
      (by rw [show page + 1 + j = page + (j + 1) from by omega]; exact hlast)
    obtain ⟨n, hres⟩ := ihm.2
    constructor
    · simp [SyncService.cardsLoop, hfetch, hcup, hnotshort, RunTrace.append, ihm.1,
        List.range'_succ]
    · exact ⟨n, by simp [SyncService.cardsLoop, hfetch, hcup, hnotshort, hres]⟩

/-- C2: given full pages 1..k and a short page k+1, a driver-mode run
(with any sufficient fuel) fetches exactly the card pages 1..k+1 — and
in particular never fetches page k+2 — and then terminates
successfully. -/
theorem c2_driver_pagination_termination (env : Env) (pageSize k fuel : Nat)
    (hfuel : k + 1 ≤ fuel)
    (sets : List SetApi) (hsets : fetchAllSets env.up.setsOutcome = Except.ok sets)
    (hsup : ∀ b, env.upsertSets b = none)
    (hcup : ∀ b, env.upsertCards b = none)
    (hfull : ∀ i, 1 ≤ i → i ≤ k →
      ∃ l, fetchCardsByPage i pageSize (env.up.cardsOutcome i pageSize) = Except.ok l ∧
        l.length = pageSize)
    (hlast : ∃ l, fetchCardsByPage (k + 1) pageSize (env.up.cardsOutcome (k + 1) pageSize) =
        Except.ok l ∧ l.length < pageSize) :
    (SyncService.syncPokemonTcgWith env pageSize fuel).1.cardPagesFetched =
      List.range' 1 (k + 1) ∧
    ∃ r, (SyncService.syncPokemonTcgWith env pageSize fuel).2 = some (Except.ok r) := by
  have hloop := cardsLoop_full_then_short env pageSize hcup k 1 fuel 0 hfuel
    (fun i h1 h2 => hfull i h1 (by omega))
    (by rw [show 1 + k = k + 1 from by omega]; exact hlast)
  obtain ⟨n, hres⟩ := hloop.2
  constructor
  · simp [SyncService.syncPokemonTcgWith, hsets, hsup, hres, RunTrace.append, hloop.1]
  · exact ⟨⟨(sets.map (fun s => mapSetToInsert s env.now)).length, n⟩,
      by simp [SyncService.syncPokemonTcgWith, hsets, hsup, hres]⟩

/-- C2 witness: on the small benign fixture with page size 1 (page 1
full, page 2 short), the driver fetches exactly pages 1 and 2 and
terminates. -/
theorem c2_driver_pagination_termination_witness :
    (SyncService.syncPokemonTcgWith envSmall 1 2).1.cardPagesFetched = [1, 2] ∧
    ∃ r, (SyncService.syncPokemonTcgWith envSmall 1 2).2 = some (Except.ok r) := by
  have h := c2_driver_pagination_termination envSmall 1 1 2 (by decide)
    [setOne] rfl (fun _ => rfl) (fun _ => rfl)
    (fun i h1 h2 => by
      have hi : i = 1 := by omega
      subst hi
      exact ⟨[cardA], rfl, rfl⟩)
    ⟨[], rfl, by decide⟩
  exact ⟨by simpa using h.1, h.2⟩

/-- Helper: the driver's card loop never writes a ledger record and never
writes a sets batch, whatever the upstream and the store do. -/
theorem cardsLoop_no_ledger (env : Env) (pageSize : Nat) :
    ∀ (fuel page acc : Nat),
    (SyncService.cardsLoop env pageSize fuel page acc).1.ledger = [] ∧
    (SyncService.cardsLoop env pageSize fuel page acc).1.setBatches = [] := by
  intro fuel
  induction fuel with
  | zero => exact fun page acc => ⟨rfl, rfl⟩
  | succ f ih =>
    intro page acc
    cases hf : fetchCardsByPage page pageSize (env.up.cardsOutcome page pageSize) with
    | error msg => simp [SyncService.cardsLoop, hf]
    | ok data =>
      cases hg : env.upsertCards (data.map (fun c => mapCardToInsert c env.now)) with
      | some msg =>
        by_cases hlen : 0 < data.length
        · simp [SyncService.cardsLoop, hf, hg, hlen]
        · by_cases hshort : data.length < pageSize
          · simp [SyncService.cardsLoop, hf, hg, hlen, hshort]
          · simp [SyncService.cardsLoop, hf, hg, hlen, hshort, RunTrace.append,
              (ih (page + 1) (acc + data.length)).1, (ih (page + 1) (acc + data.length)).2]
      | none =>
        by_cases hshort : data.length < pageSize
        · simp [SyncService.cardsLoop, hf, hg, hshort]
        · simp [SyncService.cardsLoop, hf, hg, hshort, RunTrace.append,
            (ih (page + 1) (acc + data.length)).1, (ih (page + 1) (acc + data.length)).2]

/-- Helper: under full pages then a short page and a succeeding store,
the continuation-mode caller's cards iteration produces exactly the same
trace as the driver's card loop and reaches completion. -/
theorem iterateCards_matches_cardsLoop (env : Env) (tok : Option String) (pageSize : Nat)
    (hpsz : 0 < pageSize)
    (hauth : ApiSync.authRejects env.syncToken tok = false)
    (hcup : ∀ b, env.upsertCards b = none) :
    ∀ (j page fuel acc : Nat), 1 ≤ page → j + 1 ≤ fuel →
    (∀ i, page ≤ i → i < page + j →
      ∃ l, fetchCardsByPage i pageSize (env.up.cardsOutcome i pageSize) = Except.ok l ∧
        l.length = pageSize) →
    (∃ l, fetchCardsByPage (page + j) pageSize (env.up.cardsOutcome (page + j) pageSize) =
        Except.ok l ∧ l.length < pageSize) →
    (ApiSync.iterateCards env tok fuel page pageSize).1 =
      (SyncService.cardsLoop env pageSize fuel page acc).1 ∧
    (ApiSync.iterateCards env tok fuel page pageSize).2 = true := by
  intro j
  induction j with
  | zero =>
    intro page fuel acc hpage hfuel hfull hlast
    obtain ⟨l, hfetch, hlen⟩ := hlast
    rw [Nat.add_zero] at hfetch
    obtain ⟨f, rfl⟩ : ∃ f, fuel = f + 1 := ⟨fuel - 1, by omega⟩
    have hcall := handler_cards_step env tok page pageSize hpage hpsz hauth l hfetch
    have hbeq : (l.length == pageSize) = false := by
      simp
      omega
    constructor
    · simp [ApiSync.iterateCards, hcall, hcup, hbeq, SyncService.cardsLoop, hfetch, hlen]
    · simp [ApiSync.iterateCards, hcall, hcup, hbeq]
  | succ j ih =>
    intro page fuel acc hpage hfuel hfull hlast
    obtain ⟨f, rfl⟩ : ∃ f, fuel = f + 1 := ⟨fuel - 1, by omega⟩
    obtain ⟨l, hfetch, hlen⟩ := hfull page (Nat.le_refl page) (by omega)
    have hcall := handler_cards_step env tok page pageSize hpage hpsz hauth l hfetch
    have hbeq : (l.length == pageSize) = true := by simp [hlen]
    have hnotshort : ¬ (l.length < pageSize) := by omega
    have ihm := ih (page + 1) f (acc + l.length) (by omega) (by omega)
      (fun i h1 h2 => hfull i (by omega) (by omega))
      (by rw [show page + 1 + j = page + (j + 1) from by omega]; exact hlast)
    constructor
    · simp [ApiSync.iterateCards, hcall, hcup, hbeq, SyncService.cardsLoop, hfetch,
        hnotshort, RunTrace.append, ihm.1]
    · simp [ApiSync.iterateCards, hcall, hcup, hbeq, ihm.2]

/-- C9 amended: for any upstream with full pages `1..k` and a short page
`k+1` and a store where every write succeeds, the driver-mode run and the
caller-driven continuation run (replaying each returned cursor until
done) issue the same card-page fetches, the same card upsert batches in
the same order and the same sets batches, and both terminate after the
last page; but their ledger outcomes differ: the driver writes exactly
one terminal record (job `pokemon_tcg_sync`, notes `{sets, cards}`) while
the continuation run writes exactly one sets-step record (job
`seed_cards`, notes `{sets, step: "sets"}`) and none for the card
pages. -/
theorem c9_modes_agree_except_ledger (env : Env) (tok : Option String)
    (pageSize k fuel : Nat)
    (hpsz : 0 < pageSize) (hfuel : k + 1 ≤ fuel)
    (hauth : ApiSync.authRejects env.syncToken tok = false)
    (sets : List SetApi) (hsets : fetchAllSets env.up.setsOutcome = Except.ok sets)
    (hsup : ∀ b, env.upsertSets b = none)
    (hcup : ∀ b, env.upsertCards b = none)
    (hfull : ∀ i, 1 ≤ i → i ≤ k →
      ∃ l, fetchCardsByPage i pageSize (env.up.cardsOutcome i pageSize) = Except.ok l ∧
        l.length = pageSize)
    (hlast : ∃ l, fetchCardsByPage (k + 1) pageSize (env.up.cardsOutcome (k + 1) pageSize) =
        Except.ok l ∧ l.length < pageSize) :
    (SyncService.syncPokemonTcgWith env pageSize fuel).1.cardPagesFetched =
      (ApiSync.continuationRun env tok pageSize fuel).1.cardPagesFetched ∧
    (SyncService.syncPokemonTcgWith env pageSize fuel).1.cardBatches =
      (ApiSync.continuationRun env tok pageSize fuel).1.cardBatches ∧
    (SyncService.syncPokemonTcgWith env pageSize fuel).1.setBatches =
      (ApiSync.continuationRun env tok pageSize fuel).1.setBatches ∧
    (ApiSync.continuationRun env tok pageSize fuel).2 = true ∧
    (∃ total,
      (SyncService.syncPokemonTcgWith env pageSize fuel).2 =
        some (Except.ok ⟨sets.length, total⟩) ∧
      (SyncService.syncPokemonTcgWith env pageSize fuel).1.ledger =
        [⟨"pokemon_tcg_sync", true, Notes.counts sets.length total⟩] ∧
      (ApiSync.continuationRun env tok pageSize fuel).1.ledger =
        [⟨"seed_cards", true, Notes.setsStep sets.length⟩]) := by
  have hlast' : ∃ l, fetchCardsByPage (1 + k) pageSize (env.up.cardsOutcome (1 + k) pageSize) =
      Except.ok l ∧ l.length < pageSize := by
    rw [show 1 + k = k + 1 from by omega]
    exact hlast
  have hfull' : ∀ i, 1 ≤ i → i < 1 + k →
      ∃ l, fetchCardsByPage i pageSize (env.up.cardsOutcome i pageSize) = Except.ok l ∧
        l.length = pageSize :=
    fun i h1 h2 => hfull i h1 (by omega)
  have hstep : ((ApiSync.setsReq tok pageSize).body.getD {} : ApiSync.ReqBody).step.getD
      (JsValue.str "sets") = JsValue.str "sets" := rfl
  have hfirst := handler_sets_step env (ApiSync.setsReq tok pageSize) rfl hauth hstep
  rw [hsets] at hfirst
  simp only [ApiSync.setsReq, Option.getD_some] at hfirst
  rw [coercePageSize_pos pageSize hpsz] at hfirst
  have hguard : (if (sets.map (fun s => mapSetToInsert s env.now)).length > 0
      then env.upsertSets (sets.map (fun s => mapSetToInsert s env.now)) else none) = none := by
    split
    · exact hsup _
    · rfl
  simp only [hguard] at hfirst
  have hcont : ApiSync.continuationRun env tok pageSize fuel =
      (RunTrace.append
        { setBatches := if (sets.map (fun s => mapSetToInsert s env.now)).length > 0
            then [sets.map (fun s => mapSetToInsert s env.now)] else []
          ledger := [⟨"seed_cards", true,
            Notes.setsStep (sets.map (fun s => mapSetToInsert s env.now)).length⟩] }
        (ApiSync.iterateCards env tok fuel 1 pageSize).1,
       (ApiSync.iterateCards env tok fuel 1 pageSize).2) := by
    simp only [ApiSync.continuationRun, ApiSync.setsReq, hfirst]
  have hloopTrace := iterateCards_matches_cardsLoop env tok pageSize hpsz hauth hcup
    k 1 fuel 0 (by omega) hfuel hfull' hlast'
  have hloop := cardsLoop_full_then_short env pageSize hcup k 1 fuel 0 hfuel hfull' hlast'
  obtain ⟨n, hres⟩ := hloop.2
  have hnl := cardsLoop_no_ledger env pageSize fuel 1 0
  refine ⟨?_, ?_, ?_, ?_, ⟨n, ?_, ?_, ?_⟩⟩
  · simp [SyncService.syncPokemonTcgWith, hsets, hsup, hres, hcont, RunTrace.append,
      hloopTrace.1]
  · simp [SyncService.syncPokemonTcgWith, hsets, hsup, hres, hcont, RunTrace.append,
      hloopTrace.1]
  · simp [SyncService.syncPokemonTcgWith, hsets, hsup, hres, hcont, RunTrace.append,
      hloopTrace.1, hnl.2]
  · rw [hcont]
    exact hloopTrace.2
  · simp [SyncService.syncPokemonTcgWith, hsets, hsup, hres]
  · simp [SyncService.syncPokemonTcgWith, hsets, hsup, hres, RunTrace.append, hnl.1]
  · simp [hcont, RunTrace.append, hloopTrace.1, hnl.1]

/-- C9 amended witness: evaluated on the small benign fixture with page
size 1 and k = 1. -/
theorem c9_modes_agree_except_ledger_witness :
    (SyncService.syncPokemonTcgWith envSmall 1 3).1.cardPagesFetched =
      (ApiSync.continuationRun envSmall none 1 3).1.cardPagesFetched ∧
    (ApiSync.continuationRun envSmall none 1 3).2 = true ∧
    ∃ total,
      (SyncService.syncPokemonTcgWith envSmall 1 3).1.ledger =
        [⟨"pokemon_tcg_sync", true, Notes.counts 1 total⟩] ∧
      (ApiSync.continuationRun envSmall none 1 3).1.ledger =
        [⟨"seed_cards", true, Notes.setsStep 1⟩] := by
  have h := c9_modes_agree_except_ledger envSmall none 1 1 3 (by decide) (by decide) rfl
    [setOne] rfl (fun _ => rfl) (fun _ => rfl)
    (fun i h1 h2 => by
      have hi : i = 1 := by omega
      subst hi
      exact ⟨[cardA], rfl, rfl⟩)
    ⟨[], rfl, by decide⟩
  obtain ⟨h1, _, _, h4, total, _, h6, h7⟩ := h
  exact ⟨h1, h4, total, by simpa using h6, by simpa using h7⟩
